import Mathlib

/-!
Verification of the email-jobs-tracker ingestion core against its
natural-language specification.

The Python sources under `backend/app/` are shallowly embedded below:
pure helpers become Lean functions over `String` / `List Char`; Python
`re` patterns are compiled by a small faithful regex interpreter from the
verbatim pattern strings; SQLAlchemy sessions become explicit record
states (committed rows / flushed-uncommitted rows / unflushed additions);
datetimes are seconds as `Nat`; JSON payload round-trips through the
classification cache are modelled as the identity; the LLM call is an
external oracle passed in as a parameter.  Python `float` confidences are
modelled as `ℚ` (none of the verified properties depend on floating-point
rounding).
-/

namespace JobsTracker

/-! ## Python string primitives -/

/-- Python `\s` whitespace set (`str.isspace` over ASCII, as used by `re`). -/
def isPySpace (c : Char) : Bool :=
  c = ' ' || c = '\t' || c = '\n' || c = '\x0d' || c = '\x0b' || c = '\x0c'

/-- Python `str.lower()` restricted to ASCII case folding (the embedded
patterns and scanned phrases are ASCII). -/
def pyLowerChar (c : Char) : Char :=
  if 'A' ≤ c && c ≤ 'Z' then Char.ofNat (c.toNat + 32) else c

def pyLower (s : String) : String := ⟨s.data.map pyLowerChar⟩

/-- Python `str.strip()` (no argument): drop leading/trailing whitespace. -/
def pyStripList (cs : List Char) : List Char :=
  ((cs.dropWhile isPySpace).reverse.dropWhile isPySpace).reverse

def pyStrip (s : String) : String := ⟨pyStripList s.data⟩

/-- Python `str.strip(chars)`: drop leading/trailing characters from `chars`. -/
def pyStripChars (s : String) (chars : List Char) : String :=
  ⟨((s.data.dropWhile (chars.contains ·)).reverse.dropWhile (chars.contains ·)).reverse⟩

/-- Python slice `s[:n]` (by code point, as Python indexes `str`). -/
def pySlice (s : String) (n : Nat) : String := ⟨s.data.take n⟩

/-- Python truthiness of an optional string (`None` and `""` are falsy). -/
def pyTruthy : Option String → Bool
  | none => false
  | some s => !(s = "")

/-- Python `a in b` substring test on strings. -/
def listHasInfix (needle hay : List Char) : Bool :=
  match hay with
  | [] => needle.isEmpty
  | _ :: t => (needle.isPrefixOf hay) || listHasInfix needle t

def pyContains (hay needle : String) : Bool := listHasInfix needle.data hay.data

/-- Collapse `\s+` runs to a single space (the `re.sub(r"\s+", " ", ·)` step
of `_normalize_text` / `_collapse_ws`). -/
def collapseWsAux : List Char → Bool → List Char
  | [], _ => []
  | c :: t, inRun =>
    if isPySpace c then
      if inRun then collapseWsAux t true else ' ' :: collapseWsAux t true
    else
      c :: collapseWsAux t false

def collapseWsList (cs : List Char) : List Char := collapseWsAux cs false

def collapseWs (s : String) : String := ⟨collapseWsList s.data⟩

/-- Python `str.split()` word count used by `is_plausible_job_title`. -/
def pyWordCount (s : String) : Nat :=
  ((s.data.splitOnP isPySpace).filter (fun w => !w.isEmpty)).length

/-! ## Interpreter for the Python `re` subset used by the sources

The sources use `re.search` / `re.sub` over patterns built from literals,
`(?: )` groups, one capturing group, classes, `. ^ $ \b \s \w \d`,
greedy/lazy `* + ? {m,n}` quantifiers and alternation, with the `re.I`
and `re.M` flags.  Patterns are kept verbatim as strings and compiled by
`compileRE`; matching is leftmost, preference-order backtracking exactly
as in CPython's `re` (which is a backtracking engine).  A fuel argument
makes the interpreter total; all concrete evaluations below carry enough
fuel. -/

inductive RE where
  | eps
  | lit (c : Char)
  | cls (neg : Bool) (ranges : List (Char × Char))
  | dot
  | cat (a b : RE)
  | alt (a b : RE)
  | rep (a : RE) (lo : Nat) (hi : Option Nat) (lazy : Bool)
  | grp (a : RE)
  | bos
  | eos
  | wordB

def pyUpperChar (c : Char) : Char :=
  if 'a' ≤ c && c ≤ 'z' then Char.ofNat (c.toNat - 32) else c

def wordChar (c : Char) : Bool :=
  ('a' ≤ c && c ≤ 'z') || ('A' ≤ c && c ≤ 'Z') || ('0' ≤ c && c ≤ '9') || c = '_'

def inRanges (ranges : List (Char × Char)) (c : Char) : Bool :=
  ranges.any (fun r => r.1 ≤ c && c ≤ r.2)

/-- Character-class membership, honouring `re.I` by case-folding. -/
def clsHit (ci : Bool) (neg : Bool) (ranges : List (Char × Char)) (c : Char) : Bool :=
  let hit := inRanges ranges c ||
    (ci && (inRanges ranges (pyLowerChar c) || inRanges ranges (pyUpperChar c)))
  if neg then !hit else hit

def litHit (ci : Bool) (c d : Char) : Bool :=
  c = d || (ci && pyLowerChar c = pyLowerChar d)

/-- Backtracking matcher in continuation-passing style.  `caps` is the span
of capturing group 1 (the embedded patterns use at most one group).  The
continuation receives the position after the node and the captures. -/
def reRun (ml ci : Bool) (t : List Char) :
    Nat → RE → Nat → Option (Nat × Nat) →
    (Nat → Option (Nat × Nat) → Option (Nat × Option (Nat × Nat))) →
    Option (Nat × Option (Nat × Nat))
  | 0, _, _, _, _ => none
  | fuel + 1, re, pos, caps, k =>
    match re with
    | .eps => k pos caps
    | .lit c =>
      match t.get? pos with
      | some d => if litHit ci c d then k (pos + 1) caps else none
      | none => none
    | .cls neg ranges =>
      match t.get? pos with
      | some d => if clsHit ci neg ranges d then k (pos + 1) caps else none
      | none => none
    | .dot =>
      match t.get? pos with
      | some d => if d = '\n' then none else k (pos + 1) caps
      | none => none
    | .cat a b => reRun ml ci t fuel a pos caps (fun p c => reRun ml ci t fuel b p c k)
    | .alt a b => reRun ml ci t fuel a pos caps k <|> reRun ml ci t fuel b pos caps k
    | .grp a => reRun ml ci t fuel a pos caps (fun p _ => k p (some (pos, p)))
    | .rep a lo hi lazy =>
      match lo, hi with
      | n + 1, _ =>
        reRun ml ci t fuel a pos caps
          (fun p c => reRun ml ci t fuel (.rep a n (hi.map (· - 1)) lazy) p c k)
      | 0, some 0 => k pos caps
      | 0, _ =>
        -- CPython stops iterating a quantifier on an empty body match.
        if lazy then
          k pos caps <|>
            reRun ml ci t fuel a pos caps (fun p c =>
              if p = pos then none
              else reRun ml ci t fuel (.rep a 0 (hi.map (· - 1)) lazy) p c k)
        else
          (reRun ml ci t fuel a pos caps (fun p c =>
              if p = pos then none
              else reRun ml ci t fuel (.rep a 0 (hi.map (· - 1)) lazy) p c k)) <|>
            k pos caps
    | .bos =>
      if pos = 0 || (ml && 0 < pos && t.get? (pos - 1) = some '\n') then k pos caps else none
    | .eos =>
      if pos = t.length || (pos + 1 = t.length && t.get? pos = some '\n') ||
          (ml && t.get? pos = some '\n') then
        k pos caps
      else none
    | .wordB =>
      let wAt : Nat → Bool := fun i =>
        match t.get? i with
        | some c => wordChar c
        | none => false
      let prevW := if pos = 0 then false else wAt (pos - 1)
      if prevW != wAt pos then k pos caps else none

/-- Result of a successful `re.search`: match span and group-1 span. -/
structure ReMatch where
  ms : Nat
  me : Nat
  grp1 : Option (Nat × Nat)

def reFuel (t : List Char) : Nat := (t.length + 2) * (t.length + 2) * 64 + 4096

/-- `re.search`: try successive start positions left to right. -/
def searchFrom (ml ci : Bool) (re : RE) (t : List Char) :
    Nat → Nat → Option ReMatch
  | 0, _ => none
  | fuel + 1, start =>
    match reRun ml ci t (reFuel t) re start none (fun p c => some (p, c)) with
    | some (e, caps) => some ⟨start, e, caps⟩
    | none =>
      if start < t.length then searchFrom ml ci re t fuel (start + 1) else none

def searchRE (ml ci : Bool) (re : RE) (t : List Char) : Option ReMatch :=
  searchFrom ml ci re t (t.length + 1) 0

/-! ### Compiling the verbatim Python pattern strings -/

def spaceRanges : List (Char × Char) :=
  [(' ', ' '), ('\t', '\t'), ('\n', '\n'), ('\x0b', '\x0c'), ('\x0d', '\x0d')]

def wordRanges : List (Char × Char) :=
  [('a', 'z'), ('A', 'Z'), ('0', '9'), ('_', '_')]

def digitRanges : List (Char × Char) := [('0', '9')]

def hexVal (c : Char) : Option Nat :=
  let n := c.toNat
  if 48 ≤ n && n ≤ 57 then some (n - 48)
  else if 97 ≤ n && n ≤ 102 then some (n - 87)
  else if 65 ≤ n && n ≤ 70 then some (n - 55)
  else none

/-- Parse the `\uXXXX` escape. -/
def parseHex4 : List Char → Option (Char × List Char)
  | a :: b :: c :: d :: rest => do
    let va ← hexVal a
    let vb ← hexVal b
    let vc ← hexVal c
    let vd ← hexVal d
    pure (Char.ofNat (((va * 16 + vb) * 16 + vc) * 16 + vd), rest)
  | _ => none

/-- Escapes appearing outside character classes. -/
def parseEscape : List Char → Option (RE × List Char)
  | 's' :: rest => some (.cls false spaceRanges, rest)
  | 'S' :: rest => some (.cls true spaceRanges, rest)
  | 'w' :: rest => some (.cls false wordRanges, rest)
  | 'W' :: rest => some (.cls true wordRanges, rest)
  | 'd' :: rest => some (.cls false digitRanges, rest)
  | 'D' :: rest => some (.cls true digitRanges, rest)
  | 'b' :: rest => some (.wordB, rest)
  | 'u' :: rest => (parseHex4 rest).map (fun (c, r) => (.lit c, r))
  | c :: rest => some (.lit c, rest)
  | [] => none

/-- One item of a character class: an escape, a range `a-z`, or a literal. -/
def parseClassItem : List Char → Option (List (Char × Char) × List Char)
  | '\\' :: 's' :: rest => some (spaceRanges, rest)
  | '\\' :: 'w' :: rest => some (wordRanges, rest)
  | '\\' :: 'd' :: rest => some (digitRanges, rest)
  | '\\' :: 'u' :: rest => (parseHex4 rest).map (fun (c, r) => ([(c, c)], r))
  | '\\' :: c :: rest => some ([(c, c)], rest)
  | c :: '-' :: d :: rest =>
    if d = ']' then some ([(c, c)], '-' :: d :: rest)
    else some ([(c, d)], rest)
  | c :: rest => some ([(c, c)], rest)
  | [] => none

def parseClassBody : Nat → List Char → List (Char × Char) →
    Option (List (Char × Char) × List Char)
  | 0, _, _ => none
  | _ + 1, ']' :: rest, acc => some (acc, rest)
  | fuel + 1, cs, acc =>
    match parseClassItem cs with
    | some (rs, rest) => parseClassBody fuel rest (acc ++ rs)
    | none => none

/-- Parse `{m}`, `{m,}` or `{m,n}` after an atom. -/
def parseBraces : Nat → List Char → Nat → Option (Nat × Option Nat × List Char)
  | 0, _, _ => none
  | fuel + 1, c :: rest, lo =>
    if '0' ≤ c && c ≤ '9' then
      parseBraces fuel rest (lo * 10 + (c.toNat - '0'.toNat))
    else if c = '}' then
      some (lo, some lo, rest)
    else if c = ',' then
      let rec hiLoop : Nat → List Char → Option Nat → Option (Nat × Option Nat × List Char)
        | 0, _, _ => none
        | fuel + 1, d :: rest2, hi =>
          if '0' ≤ d && d ≤ '9' then
            hiLoop fuel rest2 (some ((hi.getD 0) * 10 + (d.toNat - '0'.toNat)))
          else if d = '}' then some (lo, hi, rest2)
          else none
        | _ + 1, [], _ => none
      hiLoop fuel rest none
    else none
  | _ + 1, [], _ => none

mutual

def parseAlt : Nat → List Char → Option (RE × List Char)
  | 0, _ => none
  | fuel + 1, cs => do
    let (a, rest) ← parseSeq fuel cs
    match rest with
    | '|' :: rest2 => do
      let (b, rest3) ← parseAlt fuel rest2
      pure (.alt a b, rest3)
    | _ => pure (a, rest)

def parseSeq : Nat → List Char → Option (RE × List Char)
  | 0, _ => none
  | fuel + 1, cs =>
    match cs with
    | [] => some (.eps, [])
    | ')' :: _ => some (.eps, cs)
    | '|' :: _ => some (.eps, cs)
    | _ => do
      let (a, rest) ← parseItem fuel cs
      let (b, rest2) ← parseSeq fuel rest
      pure (.cat a b, rest2)

def parseItem : Nat → List Char → Option (RE × List Char)
  | 0, _ => none
  | fuel + 1, cs => do
    let (a, rest) ← parseAtom fuel cs
    match rest with
    | '*' :: '?' :: rest2 => pure (.rep a 0 none true, rest2)
    | '*' :: rest2 => pure (.rep a 0 none false, rest2)
    | '+' :: '?' :: rest2 => pure (.rep a 1 none true, rest2)
    | '+' :: rest2 => pure (.rep a 1 none false, rest2)
    | '?' :: '?' :: rest2 => pure (.rep a 0 (some 1) true, rest2)
    | '?' :: rest2 => pure (.rep a 0 (some 1) false, rest2)
    | '{' :: rest2 =>
      match parseBraces fuel rest2 0 with
      | some (lo, hi, '?' :: rest3) => pure (.rep a lo hi true, rest3)
      | some (lo, hi, rest3) => pure (.rep a lo hi false, rest3)
      | none => none
    | _ => pure (a, rest)

def parseAtom : Nat → List Char → Option (RE × List Char)
  | 0, _ => none
  | fuel + 1, cs =>
    match cs with
    | '(' :: '?' :: ':' :: rest => do
      let (a, rest2) ← parseAlt fuel rest
      match rest2 with
      | ')' :: rest3 => pure (a, rest3)
      | _ => none
    | '(' :: '?' :: _ => none
    | '(' :: rest => do
      let (a, rest2) ← parseAlt fuel rest
      match rest2 with
      | ')' :: rest3 => pure (.grp a, rest3)
      | _ => none
    | '[' :: '^' :: rest =>
      (parseClassBody fuel rest []).map (fun (rs, r) => (.cls true rs, r))
    | '[' :: rest =>
      (parseClassBody fuel rest []).map (fun (rs, r) => (.cls false rs, r))
    | '.' :: rest => some (.dot, rest)
    | '^' :: rest => some (.bos, rest)
    | '$' :: rest => some (.eos, rest)
    | '\\' :: rest => parseEscape rest
    | ')' :: _ => none
    | '|' :: _ => none
    | '*' :: _ => none
    | '+' :: _ => none
    | '?' :: _ => none
    | c :: rest => some (.lit c, rest)
    | [] => none

end

def compileRE (pat : String) : Option RE :=
  match parseAlt (2 * pat.length + 16) pat.data with
  | some (re, []) => some re
  | _ => none

/-- `bool(re.search(pat, text))` with optional `re.M` / `re.I` flags.
An uncompilable pattern yields `false`; the pattern lists below are all
checked to compile. -/
def reTest (ml ci : Bool) (pat text : String) : Bool :=
  match compileRE pat with
  | some re => (searchRE ml ci re text.data).isSome
  | none => false

def sliceOf (t : List Char) (s e : Nat) : String := ⟨(t.drop s).take (e - s)⟩

/-- `re.search` returning `m.group(1) if m.lastindex else m.group(0)` as in
`_extract_with_patterns` (every embedded capturing group participates in
any successful match of its pattern). -/
def reSearchExtract (ml ci : Bool) (pat text : String) : Option String :=
  match compileRE pat with
  | some re =>
    match searchRE ml ci re text.data with
    | some m =>
      match m.grp1 with
      | some (gs, ge) => some (sliceOf text.data gs ge)
      | none => some (sliceOf text.data m.ms m.me)
    | none => none
  | none => none

/-- `re.sub(pat, "", text)` for the `^`/`$`-anchored patterns of the
sources, which match at most once; one leftmost replacement is exact. -/
def reSubAnchored (ml ci : Bool) (pat text : String) : String :=
  match compileRE pat with
  | some re =>
    match searchRE ml ci re text.data with
    | some m => ⟨text.data.take m.ms ++ text.data.drop m.me⟩
    | none => text
  | none => text

/-! ## SHA-256 (FIPS 180-4) over bytes-as-`Nat`, for `content_hash` -/

def w32 (x : Nat) : Nat := x % 4294967296

def rotr32 (n x : Nat) : Nat := w32 ((x >>> n) ||| (x <<< (32 - n)))

def bsig0 (x : Nat) : Nat := (rotr32 2 x) ^^^ (rotr32 13 x) ^^^ (rotr32 22 x)
def bsig1 (x : Nat) : Nat := (rotr32 6 x) ^^^ (rotr32 11 x) ^^^ (rotr32 25 x)
def ssig0 (x : Nat) : Nat := (rotr32 7 x) ^^^ (rotr32 18 x) ^^^ (x >>> 3)
def ssig1 (x : Nat) : Nat := (rotr32 17 x) ^^^ (rotr32 19 x) ^^^ (x >>> 10)

def chFn (x y z : Nat) : Nat := (x &&& y) ^^^ ((x ^^^ 4294967295) &&& z)
def majFn (x y z : Nat) : Nat := (x &&& y) ^^^ (x &&& z) ^^^ (y &&& z)

def sha256K : List Nat :=
  [1116352408, 1899447441, 3049323471, 3921009573, 961987163,
   1508970993, 2453635748, 2870763221, 3624381080, 310598401,
   607225278, 1426881987, 1925078388, 2162078206, 2614888103,
   3248222580, 3835390401, 4022224774, 264347078, 604807628,
   770255983, 1249150122, 1555081692, 1996064986, 2554220882,
   2821834349, 2952996808, 3210313671, 3336571891, 3584528711,
   113926993, 338241895, 666307205, 773529912, 1294757372,
   1396182291, 1695183700, 1986661051, 2177026350, 2456956037,
   2730485921, 2820302411, 3259730800, 3345764771, 3516065817,
   3600352804, 4094571909, 275423344, 430227734, 506948616,
   659060556, 883997877, 958139571, 1322822218, 1537002063,
   1747873779, 1955562222, 2024104815, 2227730452, 2361852424,
   2428436474, 2756734187, 3204031479, 3329325298]

def sha256H0 : List Nat :=
  [1779033703, 3144134277, 1013904242, 2773480762,
   1359893119, 2600822924, 528734635, 1541459225]

def be64 (n : Nat) : List Nat :=
  [n >>> 56 % 256, n >>> 48 % 256, n >>> 40 % 256, n >>> 32 % 256,
   n >>> 24 % 256, n >>> 16 % 256, n >>> 8 % 256, n % 256]

def padMessage (msg : List Nat) : List Nat :=
  let L := msg.length
  let zeros := (119 - L % 64) % 64
  msg ++ (0x80 :: List.replicate zeros 0) ++ be64 (8 * L)

def bytesToWords : List Nat → List Nat
  | a :: b :: c :: d :: rest => (((a * 256 + b) * 256 + c) * 256 + d) :: bytesToWords rest
  | _ => []

def extendSchedule (w : List Nat) : Nat → List Nat
  | 0 => w
  | n + 1 =>
    let w := extendSchedule w n
    let t := w.length
    w ++ [w32 (ssig1 (w.getD (t - 2) 0) + w.getD (t - 7) 0 +
               ssig0 (w.getD (t - 15) 0) + w.getD (t - 16) 0)]

def sha256Round (st : List Nat) (kw : Nat) : List Nat :=
  match st with
  | [a, b, c, d, e, f, g, h] =>
    let t1 := w32 (h + bsig1 e + chFn e f g + kw)
    let t2 := w32 (bsig0 a + majFn a b c)
    [w32 (t1 + t2), a, b, c, w32 (d + t1), e, f, g]
  | st => st

def sha256Block (h : List Nat) (block : List Nat) : List Nat :=
  let w := extendSchedule (bytesToWords block) 48
  let kw := (sha256K.zip w).map (fun p => w32 (p.1 + p.2))
  let st := kw.foldl sha256Round h
  (h.zip st).map (fun p => w32 (p.1 + p.2))

def sha256Iter (h : List Nat) (bytes : List Nat) : Nat → List Nat
  | 0 => h
  | n + 1 => sha256Iter (sha256Block h (bytes.take 64)) (bytes.drop 64) n

def hexDigit (n : Nat) : Char :=
  Char.ofNat (if n < 10 then n + 48 else n + 87)

def wordHex (x : Nat) : List Char :=
  [hexDigit (x >>> 28 % 16), hexDigit (x >>> 24 % 16), hexDigit (x >>> 20 % 16),
   hexDigit (x >>> 16 % 16), hexDigit (x >>> 12 % 16), hexDigit (x >>> 8 % 16),
   hexDigit (x >>> 4 % 16), hexDigit (x % 16)]

/-- `hashlib.sha256(bytes).hexdigest()`. -/
def sha256Hex (msg : List Nat) : String :=
  let padded := padMessage msg
  ⟨(sha256Iter sha256H0 padded (padded.length / 64)).flatMap wordHex⟩

/-- UTF-8 encoding of a string as a byte list (`str.encode("utf-8")`). -/
def utf8Char (c : Char) : List Nat :=
  let n := c.toNat
  if n < 0x80 then [n]
  else if n < 0x800 then [0xc0 ||| (n >>> 6), 0x80 ||| (n &&& 0x3f)]
  else if n < 0x10000 then
    [0xe0 ||| (n >>> 12), 0x80 ||| ((n >>> 6) &&& 0x3f), 0x80 ||| (n &&& 0x3f)]
  else
    [0xf0 ||| (n >>> 18), 0x80 ||| ((n >>> 12) &&& 0x3f),
     0x80 ||| ((n >>> 6) &&& 0x3f), 0x80 ||| (n &&& 0x3f)]

def utf8Bytes (s : String) : List Nat := s.data.flatMap utf8Char

/-! ## `email_classifier.py` -/

/-- `content_hash(subject, sender, body)`: SHA-256 hex digest of
`f"{subject or ''}|{sender or ''}|{(body or '')[:5000]}"` encoded UTF-8. -/
def content_hash (subject sender body : String) : String :=
  sha256Hex (utf8Bytes (subject ++ "|" ++ sender ++ "|" ++ pySlice body 5000))

/-- `_normalize_text(*parts)`: join with spaces, lowercase, collapse `\s+`
to one space, strip. -/
def normalizeTextList (parts : List String) : String :=
  pyStrip (collapseWs (pyLower (String.intercalate " " parts)))

/-- `_matches_any(text, patterns)`: `any(re.search(p, text) ...)` (no flags). -/
def matchesAny (text : String) (patterns : List String) : Bool :=
  patterns.any (fun p => reTest false false p text)

/-- ASCII apostrophe, written via its code point to satisfy the character
conventions of this file. -/
def apoS : String := String.singleton (Char.ofNat 39)

/-- The fragment `(?:'|’)?` recurring in the classifier patterns. -/
def apoAlt : String := "(?:" ++ apoS ++ "|’)?"

def conditionalPhrases : List String :=
  ["if\\s+(?:you" ++ apoAlt ++ "re|we" ++ apoAlt ++ "re)\\s+selected\\s+for\\s+an?\\s+interview",
   "if\\s+selected\\s+for\\s+an?\\s+interview",
   "if\\s+we\\s+decide\\s+to\\s+move\\s+forward",
   "if\\s+we\\s+move\\s+forward",
   "should\\s+you\\s+advance\\s+to\\s+the\\s+next\\s+step",
   "if\\s+chosen\\s+to\\s+move\\s+forward"]

/-- `_has_conditional_interview_language(text)`. -/
def hasConditionalInterviewLanguage (text : String) : Bool :=
  matchesAny text conditionalPhrases

def offerPhrases : List String :=
  ["we" ++ apoAlt ++ "re\\s+pleased\\s+to\\s+offer",
   "we" ++ apoAlt ++ "d\\s+like\\s+to\\s+extend\\s+an?\\s+offer",
   "offer\\s+letter",
   "congratulations\\s+on\\s+your\\s+offer",
   "compensation\\s+package"]

def rejectionPhrases : List String :=
  ["unfortunately",
   "regret\\s+to\\s+inform",
   "we" ++ apoAlt ++ "re\\s+sorry\\s+to\\s+inform",
   "not\\s+moving\\s+forward",
   "will\\s+not\\s+be\\s+moving\\s+forward",
   "decided\\s+to\\s+move\\s+forward\\s+with\\s+other\\s+candidates",
   "not\\s+selected",
   "position\\s+has\\s+been\\s+filled",
   "we\\s+will\\s+not\\s+proceed"]

def assessmentPhrases : List String :=
  ["coding\\s+challenge",
   "take[-\\s]?home\\s+assignment",
   "assessment",
   "online\\s+assessment",
   "hackerrank",
   "codesignal",
   "codility",
   "technical\\s+assessment",
   "skill\\s+assessment"]

def interviewPhrases : List String :=
  ["invit(?:e|ing)\\s+you\\s+for\\s+an?\\s+interview",
   "schedule\\s+an?\\s+interview",
   "interview\\s+with\\s+our\\s+team",
   "next\\s+step.*interview",
   "interview\\s+process",
   "onsite\\s+interview",
   "panel\\s+interview",
   "technical\\s+interview"]

def screeningPhrases : List String :=
  ["intro(?:ductory)?\\s+call",
   "phone\\s+screen",
   "recruiter\\s+screen",
   "screening\\s+call",
   "15[-–]\\s*30\\s+min(?:ute)?\\s+call",
   "schedule\\s+(?:a\\s+)?call",
   "available\\s+for\\s+(?:a\\s+)?call",
   "dates?\\s+and\\s+times?\\s+(?:that\\s+)?(?:work|(?:you[" ++ apoS ++ "\\u2019]?re\\s+)?available)"]

def applicationReceivedPhrases : List String :=
  ["thank\\s+you\\s+for\\s+applying",
   "thanks?\\s+for\\s+applying",
   "we\\s+received\\s+your\\s+application",
   "application\\s+received",
   "your\\s+application\\s+has\\s+been\\s+received",
   "we\\s+appreciate\\s+your\\s+interest",
   "thanks?\\s+for\\s+your\\s+interest",
   "we" ++ apoAlt ++ "ll\\s+review\\s+your\\s+application",
   "reviewing\\s+your\\s+application"]

def recruiterOutreachPhrases : List String :=
  ["came\\s+across\\s+your\\s+profile",
   "found\\s+your\\s+profile",
   "noticed\\s+your\\s+profile",
   "reaching\\s+out\\s+about\\s+an?\\s+opportunity",
   "would\\s+you\\s+be\\s+interested\\s+in",
   "opportunity\\s+for\\s+you"]

/-- `_rule_based_category(subject, body, sender)`: first matching strong
rule wins, in source order (offer, rejection, assessment, screening,
interview, application-received/conditional, recruiter outreach). -/
def ruleBasedCategory (subject body sender : String) : Option String :=
  let text := normalizeTextList [subject, body, sender]
  if matchesAny text offerPhrases then some "OFFER"
  else if matchesAny text rejectionPhrases then some "REJECTION"
  else if matchesAny text assessmentPhrases then some "ASSESSMENT"
  else if matchesAny text screeningPhrases then some "SCREENING_REQUEST"
  else if matchesAny text interviewPhrases then some "INTERVIEW_REQUEST"
  else if matchesAny text applicationReceivedPhrases ||
      hasConditionalInterviewLanguage text then some "APPLICATION_RECEIVED"
  else if matchesAny text recruiterOutreachPhrases then some "RECRUITER_OUTREACH"
  else none

/-- The structured classification payload of `email_classifier.py`
(the dict built by `_parse_single_result` / `structured_classify_email`). -/
structure ClassificationResult where
  category : String
  subcategory : Option String := none
  company_name : String := "Unknown"
  job_title : Option String := none
  salary_min : Option ℚ := none
  salary_max : Option ℚ := none
  location : Option String := none
  confidence : Option ℚ := none
deriving DecidableEq

/-- `apply_category_overrides(result, subject, body, sender)`; a falsy
(`None`/empty) result is modelled as `none` and returned unchanged. -/
def apply_category_overrides :
    Option ClassificationResult → String → String → String → Option ClassificationResult
  | none, _, _, _ => none
  | some r, subject, body, sender =>
    match ruleBasedCategory subject body sender with
    | some rc => some { r with category := rc }
    | none =>
      if r.category = "INTERVIEW_REQUEST" || r.category = "SCREENING_REQUEST" then
        if hasConditionalInterviewLanguage (normalizeTextList [subject, body]) then
          some { r with category := "APPLICATION_RECEIVED" }
        else some r
      else some r

/-! ## `job_title_extraction.py` -/

/-- Python `str.rstrip(chars)`. -/
def pyRstripChars (s : String) (chars : List Char) : String :=
  ⟨(s.data.reverse.dropWhile (chars.contains ·)).reverse⟩

/-- `_collapse_ws(s)`: strip, then collapse `\s+` runs to one space. -/
def collapse_ws (s : String) : String := collapseWs (pyStrip s)

/-- The quote/bracket characters stripped by `clean_job_title`
(`" \t\r\n\"'“”‘’\x60"`), with apostrophe and backtick via code points. -/
def titleStripChars : List Char :=
  [' ', '\t', '\x0d', '\n', '"', Char.ofNat 39, '“', '”', '‘', '’', Char.ofNat 96]

/-- `s.rstrip(" .,:;|/\\-–—")` character set. -/
def titleRstripChars : List Char :=
  [' ', '.', ',', ':', ';', '|', '/', '\\', '-', '–', '—']

/-- `clean_job_title(raw)`: collapse whitespace, strip wrappers/prefixes,
drop trailing `at <Company>` and requisition IDs, trailing punctuation. -/
def clean_job_title : Option String → Option String
  | none => none
  | some raw =>
    if raw = "" then none
    else
      let s := collapse_ws raw
      if s = "" then none
      else
        let s := pyStripChars s titleStripChars
        let s := reSubAnchored false true
          ("^(?:the\\s+)?(?:role|position|title|opening|opportunity)\\s*[:\\-–—]\\s*") s
        let s := reSubAnchored false true ("^job\\s*title\\s*[:\\-–—]\\s*") s
        let s := reSubAnchored false true ("\\s+(?:role|position)\\s*$") s
        let s := pyStrip (reSubAnchored false false
          ("\\s+(?:at|with)\\s+[A-Z0-9][\\w&.," ++ apoS ++ "\\- ]\x7b1,80\x7d\\s*$") s)
        let s := pyStripChars s titleStripChars
        let s := pyStrip (reSubAnchored false true
          ("\\s*[\\(\\[\\\x7b]\\s*(?:req(?:uisition)?|job|role)?\\s*#?\\s*[A-Z0-9][\\w\\-]*\\s*[\\)\\]\\\x7d]\\s*$") s)
        let s := pyStrip (reSubAnchored false true
          ("\\s*-\\s*(?:Req|Requisition)\\s*#?\\s*[A-Z0-9][\\w\\-]*\\s*$") s)
        let s := pyRstripChars s titleRstripChars
        let s := collapse_ws s
        if s = "" then none else some s

def bannedTitles : List String :=
  ["thank you for applying", "your application", "next steps",
   "application received", "interview invitation", "candidate",
   "opportunity", "position", "role", "job"]

/-- `is_plausible_job_title(title)`: 3–90 chars, at least one letter, no
URL or e-mail, at most 10 words, not a known non-title. -/
def is_plausible_job_title : Option String → Bool
  | none => false
  | some title =>
    if title = "" then false
    else
      let s := collapse_ws title
      if !(3 ≤ s.length && s.length ≤ 90) then false
      else if !(reTest false false "[A-Za-z]" s) then false
      else if reTest false true ("https?://|www\\.") s then false
      else if reTest false false ("\\b[\\w.\\-]+@[\\w.\\-]+\\.\\w+\\b") s then false
      else if 10 < pyWordCount s then false
      else if bannedTitles.contains (pyLower s) then false
      else true

structure TitleCandidate where
  value : String
  score : Nat
  source : String
deriving DecidableEq

def candKey (c : TitleCandidate) : String := pyLower (collapse_ws c.value)

/-- Stable insertion step for sorting by score descending: insert after
every element of equal or higher score. -/
def insertByScore (c : TitleCandidate) : List TitleCandidate → List TitleCandidate
  | [] => [c]
  | d :: t => if d.score < c.score then c :: d :: t else d :: insertByScore c t

/-- Stable sort by score descending (Python `sorted(..., reverse=True)`). -/
def sortByScore (cands : List TitleCandidate) : List TitleCandidate :=
  cands.foldl (fun acc c => insertByScore c acc) []

/-- `_dedupe_keep_best`: keep the best-scoring candidate per
case-insensitive key (insertion order preserved), then stable-sort by
score descending. -/
def dedupeKeepBest (cands : List TitleCandidate) : List TitleCandidate :=
  let best := cands.foldl (fun (acc : List TitleCandidate) c =>
    match acc.find? (fun e => candKey e = candKey c) with
    | some e =>
      if e.score < c.score then
        acc.map (fun e2 => if candKey e2 = candKey c then c else e2)
      else acc
    | none => acc ++ [c]) []
  sortByScore best

/-- `_extract_with_patterns(text, patterns)` with `re.I | re.M`; a match is
cleaned and kept only when plausible. -/
def extractWithPatterns (text : String) (patterns : List (String × Nat × String)) :
    List TitleCandidate :=
  patterns.filterMap (fun pst =>
    (reSearchExtract true true pst.1 text).bind (fun raw =>
      (clean_job_title (some raw)).bind (fun v =>
        if is_plausible_job_title (some v) then some ⟨v, pst.2.1, pst.2.2⟩
        else none)))

def subjectTitlePatterns : List (String × Nat × String) :=
  [("\\b(?:interview|phone\\s*screen|screening)\\b.*?\\bfor\\b\\s+(.+?)\\s*$",
    120, "subject:interview_for"),
   ("\\b(?:application|applied|thanks\\s+for\\s+applying|thank\\s+you\\s+for\\s+applying)\\b.*?(?:for|-\\s*)\\s+(.+?)\\s*$",
    110, "subject:applied_for"),
   ("^\\s*([A-Za-z][^|]\x7b3,80\x7d?)\\s+[-–—]\\s+(?:remote|hybrid|onsite)\\b",
    105, "subject:title_dash_location"),
   ("\\b(?:role|position|title|opening|opportunity)\\s*[:\\-–—]\\s*(.+?)\\s*$",
    100, "subject:role_label"),
   ("^\\s*(.+?)\\s+\\b(?:at|with)\\b\\s+[A-Z0-9]",
    95, "subject:title_at_company")]

def bodyTitlePatterns : List (String × Nat × String) :=
  [("thank you for applying for (?:the )?(.+?)(?:\\s+(?:role|position))?\\s+(?:at|with)\\b",
    90, "body:thanks_for_applying"),
   ("\\byour application (?:was received|for)\\s*(?:for\\s+)?(.+?)\\s*(?:\\n|\\.|,|$)",
    80, "body:your_application_for"),
   ("\\binvit(?:e|ing)\\s+you\\b.*?\\bfor\\b\\s+(.+?)\\s*(?:\\n|\\.|,|$)",
    75, "body:invite_for"),
   ("\\b(?:position|role|job title|title|hiring)\\s*[:\\-–—]\\s*(.+?)\\s*(?:\\n|\\.|,|$)",
    70, "body:label")]

/-- `get_job_title_candidates(subject=…, body=…, max_body_chars=2500)`. -/
def get_job_title_candidates (subject body : String) : List TitleCandidate :=
  let body := pySlice body 2500
  dedupeKeepBest
    (extractWithPatterns subject subjectTitlePatterns ++
     extractWithPatterns body bodyTitlePatterns)

/-- `pick_best_job_title(subject=…, body=…, llm_suggested=…)`. -/
def pick_best_job_title (subject body : String) (llm_suggested : Option String) :
    Option String :=
  let suggested := clean_job_title llm_suggested
  if is_plausible_job_title suggested then suggested
  else
    match get_job_title_candidates subject body with
    | c :: _ => some c.value
    | [] => none

/-! ## `langgraph_pipeline.py`

The compiled graph (default, combined node) is the linear composition
`classify_and_extract → match_resume → assign_stage`.  The single LLM
call together with `_parse_json_response` and the `float(...)`
conversions is an external effect; it enters the model as an
`LLMOutcome` parameter: `failure` is the `except` branch of the node's
`try`, `success` carries the parsed dict fields (`confidence` already
converted, defaulting to `0.5` when the key is missing). -/

def EMAIL_CATEGORIES : List String :=
  ["job_application_confirmation", "job_rejection", "interview_assessment",
   "application_followup", "recruiter_outreach", "talent_community",
   "linkedin_connection_request", "linkedin_message",
   "linkedin_job_recommendations", "linkedin_profile_activity",
   "job_alerts", "verification_security", "promotional_marketing",
   "receipts_invoices"]

/-- `STAGE_MAPPING.get(email_class, "Other")`. -/
def stageFor (c : String) : String :=
  if c = "job_application_confirmation" then "Applied"
  else if c = "application_followup" then "Applied"
  else if c = "interview_assessment" then "Interview"
  else if c = "recruiter_outreach" then "Contacted"
  else if c = "job_rejection" then "Rejected"
  else if c = "talent_community" then "Pipeline"
  else "Other"

/-- `ACTION_CATEGORIES` lookup. -/
def actionItemsFor (c : String) : Option (List String) :=
  if c = "interview_assessment" then some ["Complete assessment or schedule interview"]
  else if c = "application_followup" then some ["Submit additional documents"]
  else if c = "recruiter_outreach" then some ["Respond to recruiter"]
  else none

def SKIP_EXTRACTION_CATEGORIES : List String :=
  ["linkedin_connection_request", "linkedin_message",
   "linkedin_profile_activity", "verification_security",
   "promotional_marketing", "receipts_invoices"]

/-- `EmailState` (`TypedDict, total=False`): optional keys are `Option`s;
`none` models an absent key.  `needs_review` is read by the ingestion
loop via `.get("needs_review", False)` and is never written by any node
of this pipeline. -/
structure EmailState where
  email_id : String := ""
  subject : String := ""
  body : String := ""
  sender : String := ""
  received_date : String := ""
  email_class : Option String := none
  confidence : Option ℚ := none
  classification_reasoning : Option String := none
  company_name : Option String := none
  job_title : Option String := none
  position_level : Option String := none
  resume_matched : Option String := none
  resume_file_id : Option String := none
  resume_version : Option String := none
  application_stage : Option String := none
  requires_action : Option Bool := none
  action_items : Option (List String) := none
  processing_status : Option String := none
  errors : List String := []
  needs_review : Option Bool := none
  processed_by : Option String := none
deriving DecidableEq

/-- Parsed fields of the combined classify+extract LLM response. -/
structure LLMParsed where
  emailClass : String := ""
  confidence : ℚ := 1 / 2
  reasoning : String := ""
  companyName : Option String := none
  jobTitle : Option String := none
  positionLevel : Option String := none
deriving DecidableEq

inductive LLMOutcome where
  | failure (msg : String)
  | success (r : LLMParsed)

/-- `classify_and_extract_node(state)`, with its LLM call abstracted as
`out`.  Field updates mirror the returned dicts of the three branches. -/
def classify_and_extract_node (out : LLMOutcome) (st : EmailState) : EmailState :=
  let subject := st.subject
  let body_sample := pySlice st.body 1500
  let title_candidates := get_job_title_candidates subject body_sample
  match out with
  | .failure msg =>
    { st with
      email_class := some "promotional_marketing",
      confidence := some 0,
      classification_reasoning := some ("Processing failed: " ++ msg),
      company_name := none, job_title := none, position_level := none,
      errors := st.errors ++ ["combined_error: " ++ msg] }
  | .success r =>
    let cls0 := pyStrip r.emailClass
    let email_class :=
      if EMAIL_CATEGORIES.contains cls0 then cls0 else "promotional_marketing"
    if SKIP_EXTRACTION_CATEGORIES.contains email_class then
      { st with
        email_class := some email_class,
        confidence := some r.confidence,
        classification_reasoning := some r.reasoning,
        company_name := none, job_title := none, position_level := none }
    else
      let jt0 := pick_best_job_title subject body_sample r.jobTitle
      let jt1 := clean_job_title jt0
      let job_title :=
        if pyTruthy jt1 && !is_plausible_job_title jt1 then
          (title_candidates.head?).map (fun c => c.value)
        else jt1
      { st with
        email_class := some email_class,
        confidence := some r.confidence,
        classification_reasoning := some r.reasoning,
        company_name := r.companyName,
        job_title := job_title,
        position_level := r.positionLevel }

def resumeMatchClasses : List String :=
  ["job_application_confirmation", "job_rejection",
   "interview_assessment", "application_followup"]

/-- `match_resume_node(state)`: placeholder returning null resume fields
in both branches. -/
def match_resume_node (st : EmailState) : EmailState :=
  if resumeMatchClasses.contains (st.email_class.getD "") then
    { st with resume_matched := none, resume_file_id := none, resume_version := none }
  else
    { st with resume_matched := none, resume_file_id := none, resume_version := none }

def screeningStagePhrases : List String :=
  ["phone screen", "screening call", "recruiter screen", "intro call",
   "introductory call", "15 min call", "30 min call", "schedule a call",
   "available for a call"]

def offerStagePhrases : List String :=
  ["we" ++ apoS ++ "re pleased to offer", "we are pleased to offer",
   "we" ++ apoS ++ "d like to offer", "we would like to offer",
   "extend an offer", "offer letter", "employment offer",
   "compensation package", "salary offer", "congratulations"]

/-- `assign_stage_node(state)`: class→stage table, then screening and
offer overrides driven by substring scans of `subject + "\n" + body`
lowercased. -/
def assign_stage_node (st : EmailState) : EmailState :=
  let email_class := st.email_class.getD ""
  let stage0 := stageFor email_class
  let combined := pyLower (st.subject ++ "\n" ++ st.body)
  let is_screening := email_class = "interview_assessment" &&
    screeningStagePhrases.any (fun p => pyContains combined p)
  let stage1 := if is_screening then "Screening" else stage0
  let is_offer := offerStagePhrases.any (fun p => pyContains combined p)
  let stage := if is_offer then "Offer" else stage1
  let requires_action0 := (actionItemsFor email_class).isSome
  let action_items0 := (actionItemsFor email_class).getD []
  let requires_action := if is_offer then true else requires_action0
  let action_items :=
    if is_offer then action_items0 ++ ["Review offer details and respond"]
    else action_items0
  { st with
    application_stage := some stage,
    requires_action := some requires_action,
    action_items := some action_items,
    processing_status := some "completed" }

/-- `process_email(...)`: run the compiled combined-node graph
`START → classify_and_extract → match_resume → assign_stage → END`
on the initial state. -/
def process_email (out : LLMOutcome)
    (email_id subject body sender received_date : String) : EmailState :=
  assign_stage_node (match_resume_node (classify_and_extract_node out
    { email_id := email_id, subject := subject, body := body,
      sender := sender, received_date := received_date, errors := [] }))

/-! ## `models.py` rows and `classification_service.py` company handling -/

/-- `applications` row (the columns written by the ingestion loop).
Datetimes are seconds as `Nat`. -/
structure AppRow where
  gmail_message_id : String
  user_id : Option Nat
  company_name : String
  position : Option String
  job_title : Option String
  status : String
  category : String
  subcategory : Option String := none
  salary_min : Option ℚ := none
  salary_max : Option ℚ := none
  location : Option String := none
  confidence : Option ℚ
  email_subject : String
  email_from : String
  email_body : Option String
  received_date : Option Nat
  applied_at : Option Nat := none
  rejected_at : Option Nat := none
  interview_at : Option Nat := none
  offer_at : Option Nat := none
  linkedin_url : Option String
  classification_reasoning : Option String
  position_level : Option String
  application_stage : String
  requires_action : Bool
  action_items : List String
  resume_matched : Option String := none
  resume_file_id : Option String := none
  resume_version : Option String := none
  processing_status : String
  processed_by : String
  needs_review : Bool
deriving DecidableEq

/-- `email_logs` row. -/
structure LogRow where
  gmail_message_id : String
  user_id : Option Nat
  classification : Option String := none
  error : Option String := none
deriving DecidableEq

/-- `classification_cache` row as declared in `models.py`: keyed by the
globally-unique `content_hash` alone — the model has no `user_id`
column.  The JSON round-trip of `raw_json` is modelled as the identity
on the stored `EmailState`. -/
structure CacheRow where
  content_hash : String
  category : String
  subcategory : Option String := none
  company_name : Option String := none
  job_title : Option String := none
  salary_min : Option ℚ := none
  salary_max : Option ℚ := none
  location : Option String := none
  confidence : Option ℚ := none
  raw_json : Option EmailState := none
deriving DecidableEq

/-- `companies` row (aliases JSON modelled as the list). -/
structure CompanyRow where
  canonical_name : String
  aliases : Option (List String) := none
deriving DecidableEq

/-- `re.escape`: backslash-escape non-word characters. -/
def reEscape (s : String) : String :=
  ⟨s.data.flatMap (fun c => if wordChar c then [c] else ['\\', c])⟩

/-- `re.split(r"[\s,]+", "Inc LLC Corp Ltd Co. Company L.L.C. L.L.C")`. -/
def companySuffixes : List String :=
  ((("Inc LLC Corp Ltd Co. Company L.L.C. L.L.C").data.splitOnP
      (fun c => isPySpace c || c = ',')).filter (fun w => !w.isEmpty)).map
    (fun w => ⟨w⟩)

/-- `normalize_company_name(name)`: strip suffixes like Inc/LLC/Corp. -/
def normalize_company_name (name : String) : String :=
  if name = "" || name = "Unknown" then name
  else
    let name := pyStrip name
    let name := companySuffixes.foldl
      (fun n suffix => pyStrip (reSubAnchored false true (reEscape suffix ++ "\\.?\\s*$") n))
      name
    if name = "" then "Unknown" else pySlice name 255

/-- `normalize_company_with_db(db, name)`. -/
def normalize_company_with_db (companies : List CompanyRow) (name : String) : String :=
  let normalized := normalize_company_name name
  match companies.find? (fun c => c.canonical_name = normalized) with
  | some c => c.canonical_name
  | none =>
    match (companies.filter (fun c => c.aliases.isSome)).find?
        (fun c => (c.aliases.getD []).contains normalized ||
                  (c.aliases.getD []).contains name) with
    | some c => c.canonical_name
    | none => normalized

/-! ## `email_processor.py`: application creation (writer side) -/

/-- `_extract_linkedin_url(text)`. -/
def extractLinkedinUrl (text : String) : Option String :=
  if text = "" then none
  else
    (reSearchExtract false true
      ("https?://(?:www\\.)?linkedin\\.com/(?:in|company)/[\\w\\-]+/?") text).map
      (fun m => pySlice (pyStrip m) 500)

/-- `_set_transition_timestamps(app, received, category)` (the `category`
argument is unused by the source body as well). -/
def setTransitionTimestamps (app : AppRow) (received : Option Nat)
    (_category : String) : AppRow :=
  match received with
  | none => app
  | some r =>
    let stage := pyStrip app.application_stage
    if stage ≠ "" then
      let app :=
        if ["Applied", "Screening", "Interview", "Offer", "Rejected"].contains stage then
          { app with applied_at := some (app.applied_at.getD r) }
        else app
      if stage = "Rejected" then
        { app with rejected_at := some (app.rejected_at.getD r) }
      else if stage = "Interview" || stage = "Screening" then
        { app with interview_at := some (app.interview_at.getD r) }
      else if stage = "Offer" then
        { app with offer_at := some (app.offer_at.getD r) }
      else app
    else
      { app with applied_at := some (app.applied_at.getD r) }

/-- `settings.openai_model` default. -/
def openaiModelSetting : String := "gpt-4o-mini"

/-- The status assignment of `_create_application_and_log`
(`email_processor.py` lines 358–364). -/
def statusFromStageCode (application_stage : String) : String :=
  if application_stage = "Rejected" then "REJECTED"
  else if application_stage = "Interview" || application_stage = "Screening" then
    "INTERVIEWING"
  else if application_stage = "Offer" then "OFFER"
  else "APPLIED"

/-- `_create_application_and_log(db, mid, user_id, structured, subject,
sender, body, received)`: the `Application` and `EmailLog` rows added to
the session (persistence is handled by the callers below). -/
def create_application_and_log (companies : List CompanyRow)
    (mid : String) (user_id : Option Nat) (structured : EmailState)
    (subject sender : String) (body : Option String) (received : Option Nat) :
    AppRow × LogRow :=
  let ec0 := pyStrip (structured.email_class.getD "")
  let email_class :=
    if EMAIL_CATEGORIES.contains ec0 then ec0 else "promotional_marketing"
  let cn0 :=
    match structured.company_name with
    | some s => if s = "" then "Unknown" else s
    | none => "Unknown"
  let company_name := pySlice (normalize_company_with_db companies cn0) 255
  let job_title := structured.job_title.map
    (fun s => if s = "" then s else pySlice s 255)
  let application_stage :=
    match structured.application_stage with
    | some s => if s = "" then "Other" else s
    | none => "Other"
  let requires_action := structured.requires_action.getD false
  let action_items := structured.action_items.getD []
  let status := statusFromStageCode application_stage
  let processed_by :=
    match structured.processed_by with
    | some s => if s = "" then "langgraph-openai:" ++ openaiModelSetting else s
    | none => "langgraph-openai:" ++ openaiModelSetting
  let app : AppRow :=
    { gmail_message_id := mid
      user_id := user_id
      company_name := company_name
      position := job_title
      job_title := job_title
      status := status
      category := email_class
      subcategory := none
      salary_min := none, salary_max := none, location := none
      confidence := structured.confidence
      email_subject := pySlice subject 500
      email_from := pySlice sender 255
      email_body :=
        match body with
        | some b => if b = "" then none else some (pySlice b 10000)
        | none => none
      received_date := received
      linkedin_url := extractLinkedinUrl (body.getD "")
      classification_reasoning := structured.classification_reasoning
      position_level := structured.position_level
      application_stage := application_stage
      requires_action := requires_action
      action_items := action_items
      resume_matched := structured.resume_matched
      resume_file_id := structured.resume_file_id
      resume_version := structured.resume_version
      processing_status :=
        match structured.processing_status with
        | some s => if s = "" then "completed" else s
        | none => "completed"
      processed_by := processed_by
      needs_review := structured.needs_review.getD false }
  let app := setTransitionTimestamps app received email_class
  (app, { gmail_message_id := mid, user_id := user_id,
          classification := some email_class, error := none })

/-! ## `email_processor.py`: classification-cache access during sync

The sync path's cache helpers are stale single-tenant call sites left by
the multi-user refactor: `_get_cached_langgraph_state` begins with
`get_cached_classification_redis(h)` and `_persist_langgraph_state_to_cache`
begins with `set_cached_classification_redis(h, state)`, but
`redis_cache.py` declares `get_cached_classification_redis(content_hash,
user_id)` and `set_cached_classification_redis(content_hash, user_id,
data, ttl_hours=...)` with no defaults for the missing parameters.  Both
calls raise `TypeError` before any cache tier is reached; a raising
Python call is modelled as `Except.error` carrying the `TypeError`
message. -/

/-- The call site `get_cached_classification_redis(h)`
(`email_processor.py:262`): one positional argument against a signature
whose `user_id` parameter has no default. -/
def getCachedClassificationRedisCall (h : String) :
    Except String (Option EmailState) :=
  .error "TypeError: get_cached_classification_redis() missing 1 required positional argument: user_id"

/-- The call sites `set_cached_classification_redis(h, data)` and
`set_cached_classification_redis(h, state)` (`email_processor.py:281`
and `:299`): two positional arguments against a signature requiring
`content_hash`, `user_id` and `data`. -/
def setCachedClassificationRedisCall (h : String) (state : EmailState) :
    Except String Bool :=
  .error "TypeError: set_cached_classification_redis() missing 1 required positional argument: data"

/-- The durable-tier (L2) part of `_get_cached_langgraph_state`: query
by `content_hash` alone, validate the payload, then populate the L1
tier — whose stale call would raise again.  Dead code in the program
(the L1 read above it already raised); kept for fidelity. -/
def dbCacheLookup (db : List CacheRow) (h : String) :
    Except String (Option EmailState) :=
  match db.find? (fun row => row.content_hash = h) with
  | none => pure none
  | some row =>
    match row.raw_json with
    | none => pure none
    | some data =>
      let email_class := pyStrip (data.email_class.getD "")
      if EMAIL_CATEGORIES.contains email_class then do
        let _ ← setCachedClassificationRedisCall h data
        pure (some data)
      else pure none

/-- `_get_cached_langgraph_state(db, subject, sender, body)`: its first
step is the stale L1 read, which raises `TypeError` on every input, so
the function never returns a value; everything after the first bind is
dead code kept for fidelity. -/
def getCachedLanggraphState (db : List CacheRow) (subject sender body : String) :
    Except String (Option EmailState) := do
  let h := content_hash subject sender body
  let redisCached ← getCachedClassificationRedisCall h
  match redisCached with
  | some rc =>
    if EMAIL_CATEGORIES.contains (pyStrip (rc.email_class.getD "")) then
      pure (some rc)
    else
      dbCacheLookup db h
  | none => dbCacheLookup db h

/-- `_persist_langgraph_state_to_cache(db, subject, sender, body, state)`:
the stale L1 write raises `TypeError` before the durable upsert; the
upsert (by `content_hash` alone) is dead code kept for fidelity. -/
def persistLanggraphStateToCache (db : List CacheRow) (subject sender body : String)
    (state : EmailState) : Except String (List CacheRow) := do
  let h := content_hash subject sender body
  let ec0 := pyStrip (state.email_class.getD "")
  let email_class :=
    if EMAIL_CATEGORIES.contains ec0 then ec0 else "promotional_marketing"
  let _ok ← setCachedClassificationRedisCall h state
  match db.find? (fun row => row.content_hash = h) with
  | some _ =>
    pure (db.map (fun row =>
      if row.content_hash = h then
        { row with
          category := email_class
          company_name := state.company_name
          job_title := state.job_title
          confidence := state.confidence
          raw_json := some state }
      else row))
  | none =>
    pure (db ++ [{ content_hash := h, category := email_class, subcategory := none,
                   company_name := state.company_name, job_title := state.job_title,
                   salary_min := none, salary_max := none, location := none,
                   confidence := state.confidence, raw_json := some state }])

/-! ## `email_processor.py`: duplicate detection -/

def APPLICATION_LIKE_CLASSES : List String :=
  ["job_application_confirmation", "job_rejection",
   "interview_assessment", "application_followup"]

/-- `DUPLICATE_DAYS_WINDOW = 14` in seconds. -/
def duplicateWindowSeconds : Nat := 14 * 24 * 3600

/-- Python `email_class in APPLICATION_LIKE_CLASSES` (`None` is not in
the set). -/
def isApplicationLike : Option String → Bool
  | some ec => APPLICATION_LIKE_CLASSES.contains ec
  | none => false

/-- Python `value or "Unknown"` for an optional string. -/
def companyOrUnknown : Option String → String
  | some cn => if cn = "" then "Unknown" else cn
  | none => "Unknown"

/-- First truthy of `row.job_title or row.position or ""`. -/
def dupTitleSource (r : AppRow) : String :=
  match r.job_title with
  | some t => if t ≠ "" then t else (r.position.getD "")
  | none => r.position.getD ""

/-- The in-memory `DuplicateDetector` map `company_key → title keys`. -/
structure DupDetector where
  entries : List (String × List String)

/-- `DuplicateDetector.preload()`: one bulk query over this user's
applications received within the window, keyed by lowercased company. -/
def preloadDetector (apps : List AppRow) (user_id : Option Nat) (now : Nat) :
    DupDetector :=
  let windowStart := now - duplicateWindowSeconds
  let rows := apps.filter (fun a =>
    (match a.received_date with | some rd => windowStart ≤ rd | none => false) &&
    a.company_name ≠ "" && a.company_name ≠ "Unknown" &&
    (match user_id with | some u => a.user_id = some u | none => true))
  rows.foldl (fun d a =>
    let company := pyLower (pyStrip a.company_name)
    if company = "" then d
    else
      let title := pyLower (pyStrip (dupTitleSource a))
      match d.entries.find? (fun e => e.1 = company) with
      | some _ =>
        ⟨d.entries.map (fun e => if e.1 = company then (e.1, e.2 ++ [title]) else e)⟩
      | none => ⟨d.entries ++ [(company, [title])]⟩) ⟨[]⟩

/-- `DuplicateDetector.is_duplicate(company_name, job_title, received)`. -/
def detectorIsDuplicate (d : DupDetector) (company_name : String)
    (job_title : Option String) : Bool :=
  if company_name = "" || company_name = "Unknown" then false
  else
    let company_key := pyLower (pyStrip company_name)
    match d.entries.find? (fun e => e.1 = company_key) with
    | none => false
    | some e =>
      let title_key := pyLower (pyStrip (job_title.getD ""))
      if title_key = "" then decide (0 < e.2.length)
      else if e.2.contains title_key then true
      else if e.2.contains "" then true
      else false

/-- `DuplicateDetector.add_application(company_name, job_title)`. -/
def detectorAdd (d : DupDetector) (company_name : String)
    (job_title : Option String) : DupDetector :=
  let company_key := pyLower (pyStrip company_name)
  if company_key = "" || company_key = "unknown" then d
  else
    let title_key := pyLower (pyStrip (job_title.getD ""))
    match d.entries.find? (fun e => e.1 = company_key) with
    | some _ =>
      ⟨d.entries.map (fun e => if e.1 = company_key then (e.1, e.2 ++ [title_key]) else e)⟩
    | none => ⟨d.entries ++ [(company_key, [title_key])]⟩

/-- `_is_duplicate_application(db, company_name, job_title, received,
user_id)`: the in-transaction query used by the writer loop. -/
def isDuplicateApplicationDb (visible : List AppRow) (company_name : String)
    (job_title : Option String) (received : Option Nat) (user_id : Option Nat)
    (now : Nat) : Bool :=
  if company_name = "" || company_name = "Unknown" then false
  else
    let windowStart := (received.getD now) - duplicateWindowSeconds
    (visible.filter (fun a =>
      a.company_name = company_name &&
      (match a.received_date with | some rd => windowStart ≤ rd | none => false) &&
      (match user_id with | some u => a.user_id = some u | none => true) &&
      (match job_title with
       | some jt =>
         if jt ≠ "" then a.job_title = some jt || a.position = some jt else true
       | none => true))).length ≠ 0

/-! ## `email_processor.py`: `run_sync_with_options` ingestion phases

The sync session (`SessionLocal` is created with `autoflush=False`) is
modelled explicitly: `committedApps` are committed rows, `txnApps` are
flushed-but-uncommitted rows (visible to queries on the same
transaction), `pendApps` are `db.add`ed but unflushed rows (invisible to
queries while autoflush is off).  `db.flush()` executes the pending
INSERTs against the unique index `ix_applications_user_gmail
(user_id, gmail_message_id)` and raises `IntegrityError` on a duplicate
key; `Session.rollback()` reverts everything back to the last commit
(the source calls it after the `begin_nested` savepoint has already been
unwound, so the whole outer transaction is rolled back); `db.commit()`
flushes and then publishes the transaction, and a flush failure inside
commit propagates out of `_commit_with_retry` (which retries only
`OperationalError`) and aborts the sync.  Cache and log writes are
tracked with last-commit snapshots for rollback.  Mailbox fetching and
message decoding are external; messages enter as parsed records, and the
LangGraph worker call is an oracle `classify`.  Results reach the
single-writer loop in the pending (index) order. -/

structure ParsedMsg where
  mid : String
  subject : String
  sender : String
  body : String
  received : Option Nat
deriving DecidableEq

structure SessionState where
  committedApps : List AppRow
  txnApps : List AppRow := []
  pendApps : List AppRow := []
  cacheRows : List CacheRow := []
  cacheCommitted : List CacheRow := []
  logsAll : List LogRow := []
  logsCommitted : List LogRow := []
deriving DecidableEq

def visibleApps (s : SessionState) : List AppRow := s.committedApps ++ s.txnApps

def appKey (a : AppRow) : Option Nat × String := (a.user_id, a.gmail_message_id)

def hasKey (rows : List AppRow) (k : Option Nat × String) : Bool :=
  rows.any (fun a => appKey a = k)

/-- Flush loop: each unflushed INSERT is checked against the unique
`(user_id, gmail_message_id)` index over the rows already in the
transaction; a violation raises `IntegrityError`. -/
def flushLoop (committed : List AppRow) : List AppRow → List AppRow →
    Except Unit (List AppRow)
  | txn, [] => .ok txn
  | txn, a :: rest =>
    if hasKey (committed ++ txn) (appKey a) then .error ()
    else flushLoop committed (txn ++ [a]) rest

/-- `db.flush()`. -/
def flushApps (s : SessionState) : Except Unit SessionState :=
  match flushLoop s.committedApps s.txnApps s.pendApps with
  | .ok txn => .ok { s with txnApps := txn, pendApps := [] }
  | .error _ => .error ()

/-- `db.commit()`: flush, then publish the transaction. -/
def commitSession (s : SessionState) : Except Unit SessionState :=
  match flushApps s with
  | .error _ => .error ()
  | .ok s2 =>
    .ok { committedApps := s2.committedApps ++ s2.txnApps, txnApps := [],
          pendApps := [], cacheRows := s2.cacheRows,
          cacheCommitted := s2.cacheRows, logsAll := s2.logsAll,
          logsCommitted := s2.logsAll }

/-- `Session.rollback()`: back to the last commit. -/
def rollbackSession (s : SessionState) : SessionState :=
  { s with
    txnApps := []
    pendApps := []
    cacheRows := s.cacheCommitted
    logsAll := s.logsCommitted }

structure Counters where
  created : Nat := 0
  skipped : Nat := 0
  errors : Nat := 0
  skippedExisting : Nat := 0
  skippedDuplicate : Nat := 0
  pendingCommits : Nat := 0
deriving DecidableEq

def BATCH_COMMIT_SIZE : Nat := 50

/-- Phase 1 for one message: duplicate-by-provider-id check, then cache
lookup; a valid cache hit is persisted immediately (unflushed, batched
commits), a miss is appended to `pending`. -/
def phase1Step (companies : List CompanyRow) (user_id : Option Nat)
    (st : SessionState × Counters × DupDetector × List ParsedMsg) (m : ParsedMsg) :
    Except (SessionState × Counters) (SessionState × Counters × DupDetector × List ParsedMsg) :=
  let (s, c, d, pending) := st
  let alreadyExists := (visibleApps s).any (fun a =>
    a.gmail_message_id = m.mid &&
    (match user_id with | some u => a.user_id = some u | none => true))
  if alreadyExists then
    .ok (s,
      { c with
        skipped := c.skipped + 1
        skippedExisting := c.skippedExisting + 1 }, d, pending)
  else
    match getCachedLanggraphState s.cacheRows m.subject m.sender m.body with
    | .error _ =>
      -- the TypeError is raised outside any handler in Phase 1: it
      -- unwinds to the sync task, which records the error state; the
      -- session's uncommitted work is discarded
      .error (s, c)
    | .ok (some cached) =>
      let email_class := cached.email_class
      let company_name := companyOrUnknown cached.company_name
      let job_title := cached.job_title
      if isApplicationLike email_class &&
          detectorIsDuplicate d company_name job_title then
        .ok (s,
          { c with
            skipped := c.skipped + 1
            skippedDuplicate := c.skippedDuplicate + 1 }, d, pending)
      else
        let pr := create_application_and_log companies m.mid user_id cached
          m.subject m.sender (some m.body) m.received
        let s :=
          { s with
            pendApps := s.pendApps ++ [pr.1]
            logsAll := s.logsAll ++ [pr.2] }
        let d := detectorAdd d company_name job_title
        let c :=
          { c with
            created := c.created + 1
            pendingCommits := c.pendingCommits + 1 }
        if BATCH_COMMIT_SIZE ≤ c.pendingCommits then
          match commitSession s with
          | .ok s2 => .ok (s2, { c with pendingCommits := 0 }, d, pending)
          | .error _ => .error (s, c)
        else
          .ok (s, c, d, pending)
    | .ok none => .ok (s, c, d, pending ++ [m])

/-- Result placed on the writer queue by a classification worker. -/
inductive WorkerResult where
  | ok (state : EmailState)
  | err (msg : String)

/-- The savepoint-guarded body of one writer iteration on an `ok`
result: its first statement, `_persist_langgraph_state_to_cache`, raises
`TypeError` at its own first step, the savepoint unwinds, and the broad
`except Exception` handler rolls back the whole transaction and counts
an error.  The rest of the savepoint body — the duplicate check, the
insert plus `db.flush()`, and the `IntegrityError` path counting
`skipped_existing` — is dead code kept for fidelity. -/
def writerTry (companies : List CompanyRow) (user_id : Option Nat) (now : Nat)
    (s : SessionState) (c : Counters) (m : ParsedMsg) (structured : EmailState) :
    SessionState × Counters :=
  match persistLanggraphStateToCache s.cacheRows m.subject m.sender m.body structured with
  | .error _ =>
    (rollbackSession s, { c with errors := c.errors + 1 })
  | .ok rows2 =>
    match flushApps { s with cacheRows := rows2 } with
    | .error _ =>
      (rollbackSession s,
       { c with
         skipped := c.skipped + 1
         skippedExisting := c.skippedExisting + 1 })
    | .ok s2 =>
      let email_class := structured.email_class
      let company_name := companyOrUnknown structured.company_name
      let job_title := structured.job_title
      if isApplicationLike email_class &&
          isDuplicateApplicationDb (visibleApps s2) company_name job_title
            m.received user_id now then
        (s2,
         { c with
           skipped := c.skipped + 1
           skippedDuplicate := c.skippedDuplicate + 1 })
      else
        let pr := create_application_and_log companies m.mid user_id
          structured m.subject m.sender (some m.body) m.received
        match flushApps
            { s2 with
              pendApps := s2.pendApps ++ [pr.1]
              logsAll := s2.logsAll ++ [pr.2] } with
        | .ok s3 => (s3, { c with created := c.created + 1 })
        | .error _ =>
          (rollbackSession s2,
           { c with
             skipped := c.skipped + 1
             skippedExisting := c.skippedExisting + 1 })

/-- Savepoint-guarded write of the error `EmailLog` for a failed worker
result: flush after the insert; a failure rolls back the whole
transaction. -/
def writerLogErr (user_id : Option Nat) (s : SessionState) (m : ParsedMsg)
    (msg : String) : SessionState :=
  let sLog := { s with logsAll := s.logsAll ++
    [{ gmail_message_id := m.mid, user_id := user_id, classification := none,
       error := some msg }] }
  match flushApps sLog with
  | .ok s2 => s2
  | .error _ => rollbackSession s

/-- One iteration of the single-writer persistence loop. -/
def writerStep (companies : List CompanyRow) (user_id : Option Nat) (now : Nat)
    (sc : SessionState × Counters) (item : ParsedMsg × WorkerResult) :
    Except (SessionState × Counters) (SessionState × Counters) :=
  let (s, c) := sc
  let (m, res) := item
  match res with
  | .err msg =>
    let s1 := writerLogErr user_id s m msg
    let c :=
      { c with
        errors := c.errors + 1
        pendingCommits := c.pendingCommits + 1 }
    if BATCH_COMMIT_SIZE ≤ c.pendingCommits then
      match commitSession s1 with
      | .ok s2 => .ok (s2, { c with pendingCommits := 0 })
      | .error _ => .error (s1, c)
    else
      .ok (s1, c)
  | .ok structured =>
    -- savepoint: cache upsert (with flush), duplicate check, insert + flush
    let s1c1 := writerTry companies user_id now s c m structured
    let c1 := { s1c1.2 with pendingCommits := s1c1.2.pendingCommits + 1 }
    if BATCH_COMMIT_SIZE ≤ c1.pendingCommits then
      match commitSession s1c1.1 with
      | .ok s2 => .ok (s2, { c1 with pendingCommits := 0 })
      | .error _ => .error (s1c1.1, c1)
    else
      .ok (s1c1.1, c1)

structure SyncResult where
  session : SessionState
  counters : Counters
  aborted : Bool
deriving DecidableEq

/-- The Phase-1 loop over the fetched messages; an abort short-circuits. -/
def phase1Fold (companies : List CompanyRow) (user_id : Option Nat)
    (acc : Except (SessionState × Counters)
      (SessionState × Counters × DupDetector × List ParsedMsg))
    (msgs : List ParsedMsg) :
    Except (SessionState × Counters)
      (SessionState × Counters × DupDetector × List ParsedMsg) :=
  msgs.foldl (fun acc m =>
    match acc with
    | .error e => .error e
    | .ok st => phase1Step companies user_id st m) acc

/-- The single-writer loop over the worker results; an abort
short-circuits. -/
def writerFold (companies : List CompanyRow) (user_id : Option Nat) (now : Nat)
    (acc : Except (SessionState × Counters) (SessionState × Counters))
    (items : List (ParsedMsg × WorkerResult)) :
    Except (SessionState × Counters) (SessionState × Counters) :=
  items.foldl (fun acc r =>
    match acc with
    | .error e => .error e
    | .ok sc => writerStep companies user_id now sc r) acc

/-- `run_sync_with_options`, ingestion part: preload the duplicate
detector, run Phase 1 over the fetched messages, classify the pending
ones through the worker oracle, persist results in the single-writer
loop, and run the final commit. -/
def run_ingest (companies : List CompanyRow) (user_id : Option Nat) (now : Nat)
    (committedApps : List AppRow) (cacheRows : List CacheRow)
    (msgs : List ParsedMsg) (classify : ParsedMsg → WorkerResult) : SyncResult :=
  let s0 : SessionState :=
    { committedApps := committedApps, cacheRows := cacheRows,
      cacheCommitted := cacheRows }
  let d0 := preloadDetector committedApps user_id now
  let phase1 := phase1Fold companies user_id
    (Except.ok (s0, ({} : Counters), d0, ([] : List ParsedMsg))) msgs
  match phase1 with
  | .error (s, c) => { session := s, counters := c, aborted := true }
  | .ok (s, c, _, pending) =>
    let results := pending.map (fun m => (m, classify m))
    let final := writerFold companies user_id now (Except.ok (s, c)) results
    match final with
    | .error (s, c) => { session := s, counters := c, aborted := true }
    | .ok (s, c) =>
      match commitSession s with
      | .ok s2 => { session := s2, counters := { c with pendingCommits := 0 },
                    aborted := false }
      | .error _ => { session := s, counters := c, aborted := true }

/-! ## `routers/sync.py`: `POST /api/sync-emails` -/

/-- `sync_state` row (`models.py`). -/
structure SyncStateRow where
  user_id : Option Nat := none
  last_history_id : Option String := none
  status : String := "idle"
  error : Option String := none
  processed : Nat := 0
  total : Nat := 0
  message : Option String := none
deriving DecidableEq

/-- Outcome of `POST /api/sync-emails`; `serverError` is an exception
raised inside the handler and left uncaught (FastAPI answers HTTP 500). -/
inductive StartSyncResponse where
  | httpError (statusCode : Nat) (detail : String)
  | started (mode : String)
  | serverError (msg : String)
deriving DecidableEq

/-- The handler's call site `_gmail_creds_ready_for_background()`
(`routers/sync.py:109`): zero arguments against
`gmail_service._gmail_creds_ready_for_background(user_id)`, whose
`user_id` parameter has no default. -/
def gmailCredsReadyCall : Except String Bool :=
  .error "TypeError: _gmail_creds_ready_for_background() missing 1 required positional argument: user_id"

/-- `sync_emails(...)` (the handler body after authentication):
normalize the mode, then the credentials-readiness call — which raises
`TypeError` on every request; the 400 rejection and the
`background_tasks.add_task` schedule below it are dead code kept for
fidelity.  The handler never queries `SyncState`; the row is a parameter
here to record that the outcome does not read it. -/
def sync_emails (syncState : Option SyncStateRow)
    (mode : String) : StartSyncResponse :=
  let mode :=
    if mode = "auto" || mode = "incremental" || mode = "full" then mode else "auto"
  match gmailCredsReadyCall with
  | .error e => .serverError e
  | .ok credsReady =>
    if !credsReady then
      .httpError 400
        ("Gmail authorization required. Open /api/gmail/auth in your browser " ++
         "to sign in, then try Sync again.")
    else
      .started mode

/-! ## `oauth_state_db.py` and the `finish_gmail_oauth` validation -/

/-- `oauth_state` row (`models.py`): token, kind, redirect target,
creation time — and nothing else. -/
structure OAuthStateRow where
  state_token : String
  kind : String
  redirect_url : Option String
  created_at : Nat
deriving DecidableEq

def OAUTH_STATE_TTL_SECONDS : Nat := 900

def KIND_GMAIL : String := "gmail"

/-- `oauth_state_set(kind, state_token, redirect_url)`: upsert. -/
def oauth_state_set (db : List OAuthStateRow) (kind state_token : String)
    (redirect_url : Option String) (now : Nat) : List OAuthStateRow :=
  match db.find? (fun r => r.state_token = state_token) with
  | some _ =>
    db.map (fun r =>
      if r.state_token = state_token then
        { r with kind := kind, redirect_url := redirect_url, created_at := now }
      else r)
  | none =>
    db ++ [{ state_token := state_token, kind := kind,
             redirect_url := some (redirect_url.getD ""), created_at := now }]

/-- The payload returned by `oauth_state_consume`: the source builds the
dict `{"redirect_url": row.redirect_url or "", "created_at": row.created_at}`
— it carries neither the stored `kind` nor any user binding. -/
structure ConsumePayload where
  redirect_url : String
  created_at : Nat
deriving DecidableEq

/-- `oauth_state_consume(state_token)`: look up, validate the TTL,
delete the row, return the payload (single use). -/
def oauth_state_consume (db : List OAuthStateRow) (state_token : String)
    (now : Nat) : Option ConsumePayload × List OAuthStateRow :=
  match db.find? (fun r => r.state_token = state_token) with
  | none => (none, db)
  | some row =>
    if OAUTH_STATE_TTL_SECONDS < now - row.created_at then
      (none, db.filter (fun r => r.state_token ≠ state_token))
    else
      (some { redirect_url := row.redirect_url.getD "",
              created_at := row.created_at },
       db.filter (fun r => r.state_token ≠ state_token))

/-- `entry.get("kind")` on the consume payload: the dict has no such key. -/
def payloadKind (_p : ConsumePayload) : Option String := none

/-- `entry.get("user_id")` on the consume payload: the dict has no such key. -/
def payloadUserId (_p : ConsumePayload) : Option Nat := none

inductive OAuthFinish where
  | failure (msg : String)
  | success (redirect_url : String) (token_user : Option Nat)
deriving DecidableEq

/-- `finish_gmail_oauth(code, state)`, validation and redirect
resolution (the Google token exchange and the token-file write happen
only after these checks pass). -/
def finish_gmail_oauth (entry : Option ConsumePayload) (corsOrigins : List String)
    (tokenDirSet : Bool) : OAuthFinish :=
  match entry with
  | none => .failure "Invalid or expired OAuth state"
  | some p =>
    if payloadKind p ≠ some KIND_GMAIL then .failure "Invalid or expired OAuth state"
    else
      let redirect :=
        if p.redirect_url ≠ "" then p.redirect_url
        else corsOrigins.headD "http://localhost:5173"
      let user_id := payloadUserId p
      if tokenDirSet && user_id = none then
        .failure "Invalid OAuth state (missing user binding)"
      else
        .success redirect user_id

/-! ## Theorems -/

/-- The status table exactly as the specification words it:
Rejected→REJECTED, Interview or Screening→INTERVIEWING, Offer→OFFER,
any other stage→APPLIED. -/
def statusOfStageSpec (stage : String) : String :=
  if stage = "Rejected" then "REJECTED"
  else if ["Interview", "Screening"].contains stage then "INTERVIEWING"
  else if stage = "Offer" then "OFFER"
  else "APPLIED"

theorem setTransitionTimestamps_status (a : AppRow) (r : Option Nat) (cat : String) :
    (setTransitionTimestamps a r cat).status = a.status := by
  unfold setTransitionTimestamps
  cases r <;> simp <;> (repeat' split) <;> rfl

theorem setTransitionTimestamps_stage (a : AppRow) (r : Option Nat) (cat : String) :
    (setTransitionTimestamps a r cat).application_stage = a.application_stage := by
  unfold setTransitionTimestamps
  cases r <;> simp <;> (repeat' split) <;> rfl

/-- C7: for every Application created by the ingestion loop, the stored
`status` is the pure function of the stored `application_stage` given by
Rejected→REJECTED, Interview/Screening→INTERVIEWING, Offer→OFFER, and
any other stage→APPLIED. -/
theorem C7_status_pure_function_of_stage :
    (∀ stage, statusFromStageCode stage = statusOfStageSpec stage) ∧
    ∀ companies mid uid structured subject sender body received,
      (create_application_and_log companies mid uid structured subject sender
        body received).1.status =
      statusOfStageSpec ((create_application_and_log companies mid uid structured
        subject sender body received).1.application_stage) := by
  constructor
  · intro stage
    simp only [statusFromStageCode, statusOfStageSpec, List.contains_cons,
      List.contains_nil, List.elem_eq_mem, List.mem_cons, List.not_mem_nil,
      or_false, decide_eq_true_eq]
    (repeat' split) <;> simp_all
  · intro companies mid uid structured subject sender body received
    unfold create_application_and_log
    simp only [setTransitionTimestamps_status, setTransitionTimestamps_stage]
    generalize (match structured.application_stage with
      | some s => if s = "" then "Other" else s
      | none => "Other") = stage
    simp only [statusFromStageCode, statusOfStageSpec, List.contains_cons,
      List.contains_nil]
    (repeat' split) <;> simp_all

/-- The content hash exactly as the specification words it: the SHA-256
hex digest of `subject + "|" + sender + "|" + body[:5000]`. -/
def contentHashSpec (subject sender body : String) : String :=
  sha256Hex (utf8Bytes (subject ++ "|" ++ sender ++ "|" ++ ⟨body.data.take 5000⟩))

/-- C8: `content_hash(subject, sender, body)` is the SHA-256 hex digest of
`subject + "|" + sender + "|" + body[:5000]`, and any two bodies that
agree on their first 5000 characters hash identically for every subject
and sender. -/
theorem C8_content_hash_truncates_body :
    (∀ subject sender body,
      content_hash subject sender body = contentHashSpec subject sender body) ∧
    ∀ subject sender b₁ b₂, b₁.data.take 5000 = b₂.data.take 5000 →
      content_hash subject sender b₁ = content_hash subject sender b₂ := by
  constructor
  · intro subject sender body
    rfl
  · intro subject sender b₁ b₂ h
    simp only [content_hash, pySlice, h]

/-- C8 witness: two concrete bodies that differ only after character
5000 — 5001 copies of `a` versus 5000 copies of `a` followed by `b` —
agree on their first 5000 characters, are different strings, and collide
on `content_hash`. -/
theorem C8_content_hash_witness :
    (String.mk (List.replicate 5001 'a')).data.take 5000 =
      (String.mk (List.replicate 5000 'a' ++ ['b'])).data.take 5000 ∧
    String.mk (List.replicate 5001 'a') ≠
      String.mk (List.replicate 5000 'a' ++ ['b']) ∧
    content_hash "Subj" "from@x.com" (String.mk (List.replicate 5001 'a')) =
      content_hash "Subj" "from@x.com" (String.mk (List.replicate 5000 'a' ++ ['b'])) := by
  have h1 : (List.replicate 5001 'a').take 5000 = List.replicate 5000 'a' := by
    rw [List.take_replicate]
    norm_num
  have h2 : (List.replicate 5000 'a' ++ ['b']).take 5000 = List.replicate 5000 'a' := by
    rw [List.take_append_of_le_length (by rw [List.length_replicate])]
    rw [List.take_replicate]
    norm_num
  have htake : (String.mk (List.replicate 5001 'a')).data.take 5000 =
      (String.mk (List.replicate 5000 'a' ++ ['b'])).data.take 5000 := by
    show (List.replicate 5001 'a').take 5000 = (List.replicate 5000 'a' ++ ['b']).take 5000
    rw [h1, h2]
  refine ⟨htake, ?_, ?_⟩
  · intro h
    have hdata : List.replicate 5001 'a' = List.replicate 5000 'a' ++ ['b'] :=
      congrArg String.data h
    have hcount := congrArg (List.count 'b') hdata
    rw [List.count_replicate, List.count_append, List.count_replicate,
      List.count_singleton] at hcount
    rw [if_neg (by decide), if_neg (by decide)] at hcount
    norm_num at hcount
  · exact C8_content_hash_truncates_body.2 "Subj" "from@x.com" _ _ htake

/-- C5: StartSync neither rejects with AlreadyRunning nor serializes
anything — every request, whatever the user's `SyncState` row (in
particular `status = "syncing"`) and whatever the mode, raises
`TypeError` from the zero-argument `_gmail_creds_ready_for_background()`
call (HTTP 500) before any check could run, so no run is rejected as
already running and none is ever scheduled. -/
theorem C5_start_sync_always_raises_type_error (st : Option SyncStateRow)
    (mode : String) :
    sync_emails st mode = .serverError
      "TypeError: _gmail_creds_ready_for_background() missing 1 required positional argument: user_id" :=
  rfl

/-- The OAuth-state store right after the kickoff stored one token. -/
def c6Db : List OAuthStateRow :=
  oauth_state_set [] KIND_GMAIL "state-token-1"
    (some "http://localhost:5173/after") 0

/-- The callback's consume of that token, `dt` seconds later. -/
def c6Consumed (dt : Nat) : Option ConsumePayload × List OAuthStateRow :=
  oauth_state_consume c6Db "state-token-1" dt

/-- C6: the OAuth callback round-trip always fails.  A state token
stored by the kickoff and presented within the 15-minute TTL is consumed
(single use: the row is deleted and a second consume misses), but the
consume payload carries neither the stored `kind` nor a user binding, so
`finish_gmail_oauth` rejects every such token with
"Invalid or expired OAuth state" — with or without per-user tokens
enabled — and never reaches the token write or the redirect. -/
theorem C6_oauth_callback_round_trip_always_rejected (dt : Nat) (hdt : dt ≤ 900) :
    (c6Consumed dt).1 =
      some { redirect_url := "http://localhost:5173/after", created_at := 0 } ∧
    (c6Consumed dt).2 = [] ∧
    (oauth_state_consume (c6Consumed dt).2 "state-token-1" dt).1 = none ∧
    (∀ tokenDirSet corsOrigins,
      finish_gmail_oauth (c6Consumed dt).1 corsOrigins tokenDirSet =
        .failure "Invalid or expired OAuth state") := by
  have hconsume : c6Consumed dt =
      (some { redirect_url := "http://localhost:5173/after", created_at := 0 }, []) := by
    show oauth_state_consume c6Db "state-token-1" dt = _
    have hfind : c6Db =
        [{ state_token := "state-token-1", kind := KIND_GMAIL,
           redirect_url := some "http://localhost:5173/after", created_at := 0 }] := by
      rfl
    rw [hfind]
    unfold oauth_state_consume
    simp only [OAUTH_STATE_TTL_SECONDS]
    have hle : ¬ (900 < dt - 0) := by omega
    simp [hle]
    omega
  rw [hconsume]
  refine ⟨by first | rfl | simp, by first | rfl | simp, by first | rfl | simp,
    fun tokenDirSet corsOrigins => ?_⟩
  unfold finish_gmail_oauth
  simp [payloadKind, KIND_GMAIL]

/-- C6 witness: the round-trip theorem applied 10 seconds after the
kickoff stored the token. -/
theorem C6_oauth_witness :
    (c6Consumed 10).1 =
      some { redirect_url := "http://localhost:5173/after", created_at := 0 } ∧
    (c6Consumed 10).2 = [] ∧
    (oauth_state_consume (c6Consumed 10).2 "state-token-1" 10).1 = none ∧
    (∀ tokenDirSet corsOrigins,
      finish_gmail_oauth (c6Consumed 10).1 corsOrigins tokenDirSet =
        .failure "Invalid or expired OAuth state") :=
  C6_oauth_callback_round_trip_always_rejected 10 (by decide)

/-- C9: the rule guard is idempotent — applying
`apply_category_overrides` to its own output (same subject, body and
sender) returns that output unchanged, for every classification result. -/
theorem C9_apply_category_overrides_idempotent :
    ∀ (r : Option ClassificationResult) (subject body sender : String),
      apply_category_overrides (apply_category_overrides r subject body sender)
        subject body sender =
      apply_category_overrides r subject body sender := by
  intro r subject body sender
  cases r with
  | none => rfl
  | some cr =>
    unfold apply_category_overrides
    cases hrc : ruleBasedCategory subject body sender with
    | some rc => simp only [hrc]
    | none =>
      simp only [hrc]
      by_cases hcat :
          (decide (cr.category = "INTERVIEW_REQUEST") ||
           decide (cr.category = "SCREENING_REQUEST")) = true
      · by_cases hcond :
            hasConditionalInterviewLanguage (normalizeTextList [subject, body]) = true
        · simp [hcat, hcond, hrc]
        · simp [hcat, hcond, hrc]
      · simp [hcat, hrc]

/-- The low-confidence input of the repository's own
`test_needs_review_flag_low_confidence`: the LLM answers
`promotional_marketing` with confidence 0.45. -/
def c3LLM : LLMParsed :=
  { emailClass := "promotional_marketing", confidence := 45 / 100,
    reasoning := "Uncertain classification." }

def c3State : EmailState :=
  process_email (.success c3LLM) "test_low_confidence" "Some unclear email"
    "This email content is ambiguous." "unknown@example.com" "2026-01-30"

set_option maxRecDepth 1000000 in
/-- C3: the pipeline never writes `needs_review` — no node of the graph
sets the key, so every produced state carries none — and consequently
the Application persisted for a classification with confidence
0.45 < 0.65 has `needs_review = false`, contradicting the claim that it
be true. -/
theorem C3_needs_review_stays_false :
    (∀ out email_id subject body sender received_date,
      (process_email out email_id subject body sender
        received_date).needs_review = none) ∧
    c3State.confidence = some (45 / 100) ∧ (45 : ℚ) / 100 < 65 / 100 ∧
    (create_application_and_log [] "test_low_confidence" (some 1) c3State
      "Some unclear email" "unknown@example.com"
      (some "This email content is ambiguous.") (some 1700000000)).1.needs_review
      = false := by
  refine ⟨?_, ?_, by norm_num, ?_⟩
  · intro out email_id subject body sender received_date
    unfold process_email assign_stage_node match_resume_node classify_and_extract_node
    cases out <;> simp <;> (repeat' split) <;> rfl
  · rfl
  · rfl

/-- The rejection input of the repository's own
`test_rejection_language_override`. -/
def c4Subject : String := "Thank you for your interest in RejectionCo"

def c4Body : String :=
  "Thank you for your interest. Unfortunately, we have decided not to " ++
  "move forward with your application."

def c4LLM : LLMParsed :=
  { emailClass := "job_application_confirmation", confidence := 65 / 100,
    reasoning := "Contains thank you language.",
    companyName := some "RejectionCo", jobTitle := some "Developer",
    positionLevel := some "Mid" }

set_option maxRecDepth 1000000 in
/-- C4: the graph contains no rule-guard node — its final class is
always the class produced by the classify-and-extract node — so on a
message whose normalized subject-plus-body matches a rejection phrase
(`unfortunately`) and whose LLM-proposed class is
`job_application_confirmation`, the graph's output class stays
`job_application_confirmation` instead of `job_rejection`. -/
theorem C4_no_rejection_guard_in_graph :
    (∀ out email_id subject body sender received_date,
      (process_email out email_id subject body sender received_date).email_class =
      (classify_and_extract_node out
        { email_id := email_id, subject := subject, body := body,
          sender := sender, received_date := received_date,
          errors := [] }).email_class) ∧
    matchesAny (normalizeTextList [c4Subject, c4Body]) rejectionPhrases = true ∧
    (process_email (.success c4LLM) "test_rejection" c4Subject c4Body
      "hr@rejectionco.com" "2026-01-30").email_class =
      some "job_application_confirmation" := by
  refine ⟨?_, by decide, by rfl⟩
  intro out email_id subject body sender received_date
  unfold process_email assign_stage_node match_resume_node
  simp

/-- A fresh message arriving in some user's mailbox. -/
def c1Msg : ParsedMsg :=
  { mid := "msg-of-other-user", subject := "Thanks for applying",
    sender := "no-reply@acme.com", body := "We received your application.",
    received := some 1700000000 }

/-- C1: the sync path performs no user-scoped cache read because it
completes no cache read at all: `_get_cached_langgraph_state` raises
`TypeError` at its first step (the stale single-tenant
`get_cached_classification_redis(h)` call) for every store and every
input, so any user `u2` syncing one fresh message against any cache
contents aborts in error state with nothing created or committed — the
user-scoped read the claim requires never runs. -/
theorem C1_sync_cache_read_always_raises_type_error (u2 : Nat)
    (rows : List CacheRow) :
    (∀ db subject sender body,
      getCachedLanggraphState db subject sender body = .error
        "TypeError: get_cached_classification_redis() missing 1 required positional argument: user_id") ∧
    (run_ingest [] (some u2) 1700000100 [] rows [c1Msg]
      (fun _ => .err "llm unavailable")).aborted = true ∧
    (run_ingest [] (some u2) 1700000100 [] rows [c1Msg]
      (fun _ => .err "llm unavailable")).counters.created = 0 ∧
    (run_ingest [] (some u2) 1700000100 [] rows [c1Msg]
      (fun _ => .err "llm unavailable")).session.committedApps = [] := by
  refine ⟨fun db subject sender body => rfl, rfl, rfl, rfl⟩

theorem clean_job_title_ne_some_empty (x : Option String) :
    clean_job_title x ≠ some "" := by
  unfold clean_job_title
  cases x with
  | none => simp
  | some raw =>
    by_cases h1 : raw = ""
    · simp [h1]
    · simp only [h1, if_false]
      split
      · simp
      · split <;> simp_all

theorem insertByScore_subset (c : TitleCandidate) (l : List TitleCandidate) :
    ∀ y ∈ insertByScore c l, y = c ∨ y ∈ l := by
  induction l with
  | nil =>
    intro y hy
    simp [insertByScore] at hy
    simp [hy]
  | cons d t ih =>
    intro y hy
    unfold insertByScore at hy
    split at hy
    · rcases List.mem_cons.mp hy with h | h
      · exact Or.inl h
      · exact Or.inr h
    · rcases List.mem_cons.mp hy with h | h
      · exact Or.inr (List.mem_cons.mpr (Or.inl h))
      · rcases ih y h with h2 | h2
        · exact Or.inl h2
        · exact Or.inr (List.mem_cons.mpr (Or.inr h2))

theorem foldl_insert_subset (l : List TitleCandidate) :
    ∀ acc y, y ∈ l.foldl (fun a c => insertByScore c a) acc → y ∈ acc ∨ y ∈ l := by
  induction l with
  | nil => simp
  | cons x t ih =>
    intro acc y h
    simp only [List.foldl_cons] at h
    rcases ih _ y h with hacc | ht
    · rcases insertByScore_subset x acc y hacc with h2 | h2 <;> simp_all
    · simp [ht]

theorem sortByScore_subset (l : List TitleCandidate) :
    ∀ y ∈ sortByScore l, y ∈ l := by
  intro y h
  rcases foldl_insert_subset l [] y h with h2 | h2
  · simp at h2
  · exact h2

theorem foldl_best_subset (l : List TitleCandidate) (f : List TitleCandidate →
      TitleCandidate → List TitleCandidate)
    (hf : ∀ acc c y, y ∈ f acc c → y ∈ acc ∨ y = c) :
    ∀ acc y, y ∈ l.foldl f acc → y ∈ acc ∨ y ∈ l := by
  induction l with
  | nil => simp
  | cons x t ih =>
    intro acc y h
    simp only [List.foldl_cons] at h
    rcases ih _ y h with hacc | ht
    · rcases hf acc x y hacc with h2 | h2 <;> simp_all
    · simp [ht]

theorem dedupeKeepBest_subset (l : List TitleCandidate) :
    ∀ y ∈ dedupeKeepBest l, y ∈ l := by
  intro y h
  unfold dedupeKeepBest at h
  have h2 := sortByScore_subset _ y h
  have h3 := foldl_best_subset l _ ?_ [] y h2
  · rcases h3 with h4 | h4
    · simp at h4
    · exact h4
  · intro acc c z hz
    split at hz
    · split at hz
      · rw [List.mem_map] at hz
        obtain ⟨e, he, heq⟩ := hz
        by_cases hk : candKey e = candKey c
        · rw [if_pos hk] at heq
          exact Or.inr heq.symm
        · rw [if_neg hk] at heq
          exact Or.inl (heq ▸ he)
      · exact Or.inl hz
    · rcases List.mem_append.mp hz with h5 | h5
      · exact Or.inl h5
      · simp at h5
        simp [h5]

theorem extractWithPatterns_all_sound (text : String)
    (pats : List (String × Nat × String)) :
    ∀ c ∈ extractWithPatterns text pats,
      is_plausible_job_title (some c.value) = true := by
  intro c hc
  unfold extractWithPatterns at hc
  rw [List.mem_filterMap] at hc
  obtain ⟨pst, -, heq⟩ := hc
  rw [Option.bind_eq_some] at heq
  obtain ⟨raw, -, heq⟩ := heq
  rw [Option.bind_eq_some] at heq
  obtain ⟨v, -, heq⟩ := heq
  by_cases hp : is_plausible_job_title (some v) = true
  · rw [if_pos hp] at heq
    cases heq
    exact hp
  · rw [if_neg hp] at heq
    simp at heq

theorem get_job_title_candidates_sound (subject body : String) :
    ∀ c ∈ get_job_title_candidates subject body,
      is_plausible_job_title (some c.value) = true := by
  intro c hc
  unfold get_job_title_candidates at hc
  have h := dedupeKeepBest_subset _ c hc
  rcases List.mem_append.mp h with h2 | h2
  · exact extractWithPatterns_all_sound _ _ c h2
  · exact extractWithPatterns_all_sound _ _ c h2

/-- The invariant claimed for extracted titles: absent, or accepted by
the plausibility filter. -/
def plausibleOrNone (t : Option String) : Prop :=
  t = none ∨ is_plausible_job_title t = true

theorem pickBestSound (subject body : String) (llm : Option String) :
    plausibleOrNone (pick_best_job_title subject body llm) := by
  unfold pick_best_job_title plausibleOrNone
  by_cases hp : is_plausible_job_title (clean_job_title llm) = true
  · rw [if_pos hp]
    exact Or.inr hp
  · rw [if_neg hp]
    cases hcand : get_job_title_candidates subject body with
    | nil => exact Or.inl rfl
    | cons c t =>
      exact Or.inr (get_job_title_candidates_sound subject body c
        (hcand ▸ List.mem_cons_self c t))

theorem process_email_job_title_eq (out : LLMOutcome)
    (email_id subject body sender received_date : String) :
    (process_email out email_id subject body sender received_date).job_title =
    (classify_and_extract_node out
      { email_id := email_id, subject := subject, body := body,
        sender := sender, received_date := received_date,
        errors := [] }).job_title := by
  unfold process_email assign_stage_node match_resume_node
  simp

theorem classifyNodeTitleSound (out : LLMOutcome) (st : EmailState) :
    plausibleOrNone ((classify_and_extract_node out st).job_title) := by
  unfold classify_and_extract_node plausibleOrNone
  cases out with
  | failure msg => exact Or.inl rfl
  | success r =>
    by_cases hskip : SKIP_EXTRACTION_CATEGORIES.contains
        (if EMAIL_CATEGORIES.contains (pyStrip r.emailClass) then
          pyStrip r.emailClass else "promotional_marketing") = true
    · left
      simp only [hskip, if_true, if_pos]
    · simp only [hskip, if_false, Bool.false_eq_true, if_neg]
      by_cases hc : (pyTruthy (clean_job_title (pick_best_job_title st.subject
          (pySlice st.body 1500) r.jobTitle)) &&
          !is_plausible_job_title (clean_job_title (pick_best_job_title st.subject
            (pySlice st.body 1500) r.jobTitle))) = true
      · simp only [hc, if_true, if_pos]
        cases hcand : get_job_title_candidates st.subject (pySlice st.body 1500) with
        | nil => exact Or.inl rfl
        | cons c t =>
          simp only [hcand, List.head?, Option.map]
          exact Or.inr (get_job_title_candidates_sound _ _ c
            (hcand ▸ List.mem_cons_self c t))
      · simp only [hc, Bool.false_eq_true, if_false, if_neg]
        cases hclean : clean_job_title (pick_best_job_title st.subject
            (pySlice st.body 1500) r.jobTitle) with
        | none => exact Or.inl rfl
        | some v =>
          rw [hclean] at hc
          have hv : v ≠ "" := by
            intro hveq
            exact clean_job_title_ne_some_empty _ (hveq ▸ hclean)
          have htruthy : pyTruthy (some v) = true := by
            simp [pyTruthy, hv]
          rw [htruthy] at hc
          simp only [Bool.true_and, Bool.not_eq_true'] at hc
          exact Or.inr (by simpa using hc)

/-- C10: `pick_best_job_title` returns `None` or a title accepted by
`is_plausible_job_title`, and the `job_title` the combined
classify-and-extract node places in the graph state is likewise `None`
or plausible, because every extracted candidate is plausibility-filtered
before ranking. -/
theorem C10_titles_none_or_plausible :
    (∀ subject body llm,
      plausibleOrNone (pick_best_job_title subject body llm)) ∧
    (∀ out email_id subject body sender received_date,
      plausibleOrNone
        ((process_email out email_id subject body sender
          received_date).job_title)) := by
  refine ⟨pickBestSound, ?_⟩
  intro out email_id subject body sender received_date
  rw [process_email_job_title_eq]
  exact classifyNodeTitleSound out _

/-- One raw message, fetched twice within the same sync. -/
def c2Msg : ParsedMsg :=
  { mid := "dup-msg-1", subject := "Thanks for applying",
    sender := "no-reply@acme.com", body := "We received your application.",
    received := some 1700000000 }

/-- The state the classification worker returns for it. -/
def c2State : EmailState :=
  { email_id := "dup-msg-1", subject := "Thanks for applying",
    body := "We received your application.", sender := "no-reply@acme.com",
    received_date := "2026-01-30",
    email_class := some "job_application_confirmation",
    confidence := some (9 / 10),
    classification_reasoning := some "Application receipt.",
    company_name := some "Acme", job_title := some "Engineer",
    position_level := some "Mid", application_stage := some "Applied",
    requires_action := some false, action_items := some [],
    processing_status := some "completed" }

/-- A sync over the duplicated message, starting from an empty store. -/
def c2Run : SyncResult :=
  run_ingest [] (some 7) 1700000100 [] [] [c2Msg, c2Msg] (fun _ => .ok c2State)

set_option maxRecDepth 1000000 in
/-- C2: ingesting the same raw message twice within one sync never
reaches the duplicate accounting the claim describes.  The first
occurrence passes the up-front existence query and then hits the cache
lookup, whose stale `get_cached_classification_redis(h)` call raises
`TypeError`; the exception is uncaught in Phase 1, the sync aborts in
error state, and no Application row is created or committed at all —
`created` does not increment and nothing is counted `skipped_existing`. -/
theorem C2_duplicate_ingest_aborts_before_dedup :
    c2Run.aborted = true ∧ c2Run.counters.created = 0 ∧
    c2Run.counters.skippedExisting = 0 ∧
    c2Run.session.committedApps = [] := by
  refine ⟨rfl, rfl, rfl, rfl⟩

end JobsTracker
